import Mathlib

/-!
Verification of the reward/metric measure components of the objectnav
repository (src/habitat/tasks/nav/object_nav_task.py) against its
natural-language specification.

The stateful measure classes are shallowly embedded: each Python object's
mutable attributes become a Lean structure, and each `reset_metric` /
`update_metric` method becomes a pure function from the old state (plus the
per-step inputs the method reads from the simulator and from other
measures) to the new state.  Python floats are modelled as rationals;
numpy's IEEE division of integer sums is modelled explicitly where a zero
denominator can occur.
-/

namespace ObjectNav

/-- A 3D point / vector with rational coordinates (axis 0 = x, 1 = y, 2 = z;
y is the vertical axis, as in the source). -/
structure Vec3 where
  x : ℚ
  y : ℚ
  z : ℚ
deriving DecidableEq

instance : Inhabited Vec3 := ⟨⟨0, 0, 0⟩⟩

/-- An axis-aligned bounding box given, as in the scene annotations consumed
by the source, by its center and its full side lengths (`aabb.sizes`). -/
structure Aabb where
  center : Vec3
  sizes : Vec3
deriving DecidableEq

/-- `RegionLevelInfo._is_in` (object_nav_task.py lines 543-550):
`og_sizes = aabb.sizes / 2.0`, then `sizes[1] += 0.1` (vertical buffer), and
the test is `loc[i] > center[i] - sizes[i] and loc[i] < center[i] + sizes[i]`
for every axis — strict inequalities on all three axes. -/
def is_in (loc : Vec3) (bb : Aabb) : Bool :=
  (decide (bb.center.x - bb.sizes.x / 2 < loc.x) &&
    decide (loc.x < bb.center.x + bb.sizes.x / 2)) &&
  (decide (bb.center.y - (bb.sizes.y / 2 + 1/10) < loc.y) &&
    decide (loc.y < bb.center.y + (bb.sizes.y / 2 + 1/10))) &&
  (decide (bb.center.z - bb.sizes.z / 2 < loc.z) &&
    decide (loc.z < bb.center.z + bb.sizes.z / 2))

/-- The scene AABB's `.min()` accessor: the low corner, `center - sizes/2`. -/
def aabbMin (bb : Aabb) : Vec3 :=
  ⟨bb.center.x - bb.sizes.x / 2, bb.center.y - bb.sizes.y / 2,
    bb.center.z - bb.sizes.z / 2⟩

/-- The scene AABB's `.max()` accessor: the high corner, `center + sizes/2`. -/
def aabbMax (bb : Aabb) : Vec3 :=
  ⟨bb.center.x + bb.sizes.x / 2, bb.center.y + bb.sizes.y / 2,
    bb.center.z + bb.sizes.z / 2⟩

/-- `RoomVisitationMap.aabb_contains` (lines 638-643), identical to
`ExplorationMetrics.aabb_contains` (lines 758-763): inclusive comparisons
against `aabb.min()` / `aabb.max()` in source order x, z, y — and no
vertical padding. -/
def aabb_contains (position : Vec3) (bb : Aabb) : Bool :=
  decide ((aabbMin bb).x ≤ position.x) && decide ((aabbMax bb).x ≥ position.x) &&
  decide ((aabbMin bb).z ≤ position.z) && decide ((aabbMax bb).z ≥ position.z) &&
  decide ((aabbMin bb).y ≤ position.y) && decide ((aabbMax bb).y ≥ position.y)

/-- Modelled from the spec's words (§4.1), for comparison with the source's
containment tests: true iff for every axis
`center[axis] - halfExtent[axis] <= point[axis] <= center[axis] + halfExtent[axis]`,
with the vertical half-extent inflated by the fixed 0.1 padding before the
test (boundary-inclusive on all three axes). -/
def specContains (p : Vec3) (bb : Aabb) : Bool :=
  (decide (bb.center.x - bb.sizes.x / 2 ≤ p.x) &&
    decide (p.x ≤ bb.center.x + bb.sizes.x / 2)) &&
  (decide (bb.center.y - (bb.sizes.y / 2 + 1/10) ≤ p.y) &&
    decide (p.y ≤ bb.center.y + (bb.sizes.y / 2 + 1/10))) &&
  (decide (bb.center.z - bb.sizes.z / 2 ≤ p.z) &&
    decide (p.z ≤ bb.center.z + bb.sizes.z / 2))

/-- Concrete box used in the containment counterexample: centered at the
origin with side length 2 on every axis. -/
def c4box : Aabb := ⟨⟨0, 0, 0⟩, ⟨2, 2, 2⟩⟩

/-- Claim C4 is false as stated: the program's two containment tests do not
both implement the inclusive padded-box formula.  At the point
`(0, 1.1, 0)`, which lies exactly on the padded vertical edge of `c4box`
(so the claimed convention answers true), `RegionLevelInfo._is_in` answers
false (its comparisons are strict) and `RoomVisitationMap.aabb_contains`
also answers false (it applies no vertical padding at all). -/
theorem c4_counterexample :
    specContains ⟨0, 11/10, 0⟩ c4box = true ∧
    is_in ⟨0, 11/10, 0⟩ c4box = false ∧
    aabb_contains ⟨0, 11/10, 0⟩ c4box = false := by
  refine ⟨?_, ?_, ?_⟩ <;>
    norm_num [specContains, is_in, aabb_contains, aabbMin, aabbMax, c4box]

/-- Claim C4, amended: the program uses two distinct containment
conventions.  `_is_in` is boundary-exclusive with the 0.1 vertical padding,
and `aabb_contains` is boundary-inclusive with no padding; both accept only
points inside the spec's inclusive padded box, but a point exactly on the
padded vertical edge is rejected by `_is_in` (strictness) and by
`aabb_contains` (no padding). -/
theorem c4_amended (p : Vec3) (bb : Aabb) :
    (is_in p bb = true → specContains p bb = true) ∧
    (aabb_contains p bb = true → specContains p bb = true) ∧
    is_in ⟨bb.center.x, bb.center.y + (bb.sizes.y / 2 + 1/10), bb.center.z⟩ bb = false ∧
    aabb_contains ⟨bb.center.x, bb.center.y + (bb.sizes.y / 2 + 1/10), bb.center.z⟩ bb
      = false := by
  refine ⟨?_, ?_, ?_, ?_⟩
  · intro h
    simp only [is_in, Bool.and_eq_true, decide_eq_true_eq] at h
    simp only [specContains, Bool.and_eq_true, decide_eq_true_eq]
    obtain ⟨⟨⟨hx1, hx2⟩, hy1, hy2⟩, hz1, hz2⟩ := h
    exact ⟨⟨⟨le_of_lt hx1, le_of_lt hx2⟩, le_of_lt hy1, le_of_lt hy2⟩,
      le_of_lt hz1, le_of_lt hz2⟩
  · intro h
    simp only [aabb_contains, aabbMin, aabbMax, ge_iff_le, Bool.and_eq_true,
      decide_eq_true_eq] at h
    simp only [specContains, Bool.and_eq_true, decide_eq_true_eq]
    obtain ⟨⟨⟨⟨⟨hx1, hx2⟩, hz1⟩, hz2⟩, hy1⟩, hy2⟩ := h
    refine ⟨⟨⟨hx1, hx2⟩, ?_, ?_⟩, hz1, hz2⟩ <;> linarith
  · rw [Bool.eq_false_iff]
    intro h
    simp only [is_in, Bool.and_eq_true, decide_eq_true_eq] at h
    obtain ⟨⟨_, _, hy2⟩, _⟩ := h
    exact absurd hy2 (lt_irrefl _)
  · rw [Bool.eq_false_iff]
    intro h
    simp only [aabb_contains, aabbMin, aabbMax, ge_iff_le, Bool.and_eq_true,
      decide_eq_true_eq] at h
    obtain ⟨⟨_, _⟩, hy2⟩ := h
    linarith

/-! ### CoverageEstimator (`ExplorationMetrics.get_coverage` / `get_navigable_area` /
`get_visible_area`, lines 787-811)

The top-down map measure hands these helpers either `None` (no map yet) or a
dict with a 2D integer label grid `"map"` and a 0/1 visibility grid
`"fog_of_war_mask"`.  numpy's true division of the integer sums is IEEE
float division; with a zero denominator it raises nothing and produces
`inf` (positive numerator) or `nan` (zero numerator), which are not
rationals, so the division result is modelled by `NumVal`. -/

/-- Result of an IEEE float computation over exact inputs: a finite (exact
rational) value, positive infinity, or NaN. -/
inductive NumVal where
  | val : ℚ → NumVal
  | posInf : NumVal
  | nan : NumVal
deriving DecidableEq

/-- numpy true division of two non-negative integer sums: `b = 0` yields
`nan` when `a = 0` and `+inf` otherwise (no exception is raised). -/
def natDivIEEE (a b : ℕ) : NumVal :=
  if b = 0 then (if a = 0 then NumVal.nan else NumVal.posInf)
  else NumVal.val ((a : ℚ) / (b : ℚ))

/-- IEEE `> 1.0` comparison: false for NaN, true for +inf. -/
def numValGtOne : NumVal → Bool
  | NumVal.val q => decide (1 < q)
  | NumVal.posInf => true
  | NumVal.nan => false

/-- The top-down map measure's payload: `info["map"]` (integer label grid)
and `info["fog_of_war_mask"]` (0/1 grid). -/
structure MapInfo where
  map : List (List ℤ)
  fog_of_war_mask : List (List ℕ)
deriving DecidableEq

/-- `np.sum(np.where(((top_down_map == 1) | (top_down_map >= 10)), 1, 0))`
(lines 796-801): the number of navigable cells. -/
def navigable_area_count (m : List (List ℤ)) : ℕ :=
  (m.map (fun row => row.countP (fun v => v == 1 || decide (10 ≤ v)))).sum

/-- `np.sum(np.where(top_down_map <= 9, 0, 1))` (line 791): the number of
visited cells. -/
def visited_points_count (m : List (List ℤ)) : ℕ :=
  (m.map (fun row => row.countP (fun v => decide (9 < v)))).sum

/-- `info["fog_of_war_mask"].sum()`. -/
def fog_mask_sum (f : List (List ℕ)) : ℕ := (f.map List.sum).sum

/-- `ExplorationMetrics.get_navigable_area` (lines 796-801). -/
def get_navigable_area : Option MapInfo → ℕ
  | none => 0
  | some i => navigable_area_count i.map

/-- `ExplorationMetrics.get_coverage` (lines 787-793): 0 when no map is
available, otherwise `visited / navigable` with no zero-denominator guard. -/
def get_coverage : Option MapInfo → NumVal
  | none => NumVal.val 0
  | some i => natDivIEEE (visited_points_count i.map) (navigable_area_count i.map)

/-- `ExplorationMetrics.get_visible_area` (lines 804-811): 0 when no map is
available, otherwise `fog_sum / navigable` clamped by `if visible_area > 1.0:
visible_area = 1.0` — again with no zero-denominator guard. -/
def get_visible_area : Option MapInfo → NumVal
  | none => NumVal.val 0
  | some i =>
    let v := natDivIEEE (fog_mask_sum i.fog_of_war_mask) (navigable_area_count i.map)
    if numValGtOne v then NumVal.val 1 else v

/-- A map whose cells are all navigation-free (`label 5` is neither 1 nor
≥ 10) but whose visibility mask has a set cell. -/
def c2map : MapInfo := { map := [[5]], fog_of_war_mask := [[1]] }

/-- Every visited cell (label > 9) is also a navigable cell (label = 1 or
≥ 10), so a map with zero navigable cells has zero visited cells. -/
theorem visited_eq_zero_of_navigable_eq_zero (m : List (List ℤ))
    (h : navigable_area_count m = 0) : visited_points_count m = 0 := by
  unfold navigable_area_count at h
  unfold visited_points_count
  rw [List.sum_eq_zero_iff] at h ⊢
  intro x hx
  rw [List.mem_map] at hx
  obtain ⟨row, hrow, rfl⟩ := hx
  have hr : row.countP (fun v => v == 1 || decide (10 ≤ v)) = 0 :=
    h _ (List.mem_map.mpr ⟨row, hrow, rfl⟩)
  rw [List.countP_eq_zero] at hr ⊢
  intro v hv hvp
  refine hr v hv ?_
  simp only [decide_eq_true_eq] at hvp
  simp only [Bool.or_eq_true, decide_eq_true_eq]
  exact Or.inr (by omega)

/-- Claim C2 is false as stated: on a present map whose navigable-area
count is 0, the ratios are not 0.  On `c2map` (navigable count 0, one
visible cell) the coverage ratio is the 0/0 result NaN, and the
visible-area ratio is the clamp of +inf, namely 1 — neither equals 0. -/
theorem c2_counterexample :
    navigable_area_count c2map.map = 0 ∧
    get_coverage (some c2map) = NumVal.nan ∧
    get_visible_area (some c2map) = NumVal.val 1 := by
  refine ⟨by decide, ?_, ?_⟩ <;>
    simp [get_coverage, get_visible_area, c2map, natDivIEEE, numValGtOne,
      visited_points_count, navigable_area_count, fog_mask_sum]

/-- Claim C2, amended: only the "no map yet" case returns 0 for both
ratios.  When a map is present with `navigable_area = 0`, the divisions are
still performed (raising no error): the coverage ratio is NaN (0/0, since no
navigable cells implies no visited cells), and the visible-area ratio is NaN
when the visibility mask is all zero and clamps to 1 otherwise (inf > 1). -/
theorem c2_amended (i : MapInfo) (h : navigable_area_count i.map = 0) :
    get_coverage none = NumVal.val 0 ∧
    get_visible_area none = NumVal.val 0 ∧
    get_coverage (some i) = NumVal.nan ∧
    get_visible_area (some i) =
      (if fog_mask_sum i.fog_of_war_mask = 0 then NumVal.nan else NumVal.val 1) := by
  refine ⟨rfl, rfl, ?_, ?_⟩
  · simp [get_coverage, natDivIEEE, h, visited_eq_zero_of_navigable_eq_zero i.map h]
  · by_cases hf : fog_mask_sum i.fog_of_war_mask = 0 <;>
      simp [get_visible_area, natDivIEEE, numValGtOne, h, hf]

/-- Witness for `c2_amended` at the all-unnavigable one-cell map with an
empty visibility mask. -/
theorem c2_witness :
    get_coverage (some ⟨[[5]], [[0]]⟩) = NumVal.nan ∧
    get_visible_area (some ⟨[[5]], [[0]]⟩) = NumVal.nan := by
  have h := c2_amended ⟨[[5]], [[0]]⟩ (by decide)
  refine ⟨h.2.2.1, ?_⟩
  have h2 := h.2.2.2
  simpa [fog_mask_sum] using h2

/-- Witness for `c4_amended`: its two implications applied at concrete
inputs (the box center, which every convention accepts). -/
theorem c4_witness :
    specContains ⟨0, 0, 0⟩ c4box = true ∧ specContains ⟨0, 1/2, 0⟩ c4box = true :=
  ⟨(c4_amended ⟨0, 0, 0⟩ c4box).1 (by norm_num [is_in, c4box]),
    (c4_amended ⟨0, 1/2, 0⟩ c4box).2.1
      (by norm_num [aabb_contains, aabbMin, aabbMax, c4box])⟩

/-! ### RoomVisitationMap (lines 616-686)

`room_aabbs`, `goal_rooms` are `defaultdict(list)` keyed by region category
name, and `room_visitation_map`, `goal_room_visitation_map` are
`defaultdict(int)`; the dicts are modelled as total functions from names
(with `[]` / `0` as the default values).  `update_metric` iterates over the
dict items and increments `map[region]` once for every box of that region
containing the agent position; per key that is exactly `countP` of the
containing boxes. -/

/-- One region of the semantic scene: its category name and its box
(`region.category.name()`, `region.aabb`). -/
structure Region where
  category : String
  aabb : Aabb
deriving DecidableEq

/-- An episode goal's navigable viewpoints (`goal.view_points`, each with an
agent position). -/
structure EpisodeGoal where
  viewPoints : List Vec3
deriving DecidableEq

/-- `np.array(goal.view_points[0].agent_state.position)` (line 660): only
the FIRST viewpoint is read.  (Python would raise on an empty list; the
theorems below only use goals with at least one viewpoint.) -/
def goalFirstViewpoint (g : EpisodeGoal) : Vec3 := g.viewPoints.headI

/-- Per-episode state of `RoomVisitationMap`. -/
structure RVState where
  room_aabbs : String → List Aabb
  goal_rooms : String → List Aabb
  room_visitation_map : String → ℕ
  goal_room_visitation_map : String → ℕ

/-- The body of the `for region in semantic_scene.regions` loop of
`RoomVisitationMap.reset_metric` (lines 653-665), acting on the pair
`(room_aabbs, goal_rooms)`: append the box under its category name, and if
some goal's first viewpoint is contained, also record it as a goal room. -/
def rvResetStep (goals : List EpisodeGoal)
    (acc : (String → List Aabb) × (String → List Aabb)) (r : Region) :
    (String → List Aabb) × (String → List Aabb) :=
  let roomAabbs1 : String → List Aabb :=
    fun n => if n = r.category then acc.1 n ++ [r.aabb] else acc.1 n
  let contains := goals.any (fun g => aabb_contains (goalFirstViewpoint g) r.aabb)
  let goalRooms1 : String → List Aabb :=
    if contains then fun n => if n = r.category then acc.2 n ++ [r.aabb] else acc.2 n
    else acc.2
  (roomAabbs1, goalRooms1)

/-- `RoomVisitationMap.reset_metric` (lines 645-667): clear everything,
then rebuild `room_aabbs` and `goal_rooms` from the scene regions and the
episode goals.  (The method first re-publishes a metric from the stale maps
via `update_metric`; that call does not affect the rebuilt maps.) -/
def rvReset (goals : List EpisodeGoal) (regions : List Region) : RVState :=
  let maps := regions.foldl (rvResetStep goals) (fun _ => [], fun _ => [])
  { room_aabbs := maps.1, goal_rooms := maps.2,
    room_visitation_map := fun _ => 0, goal_room_visitation_map := fun _ => 0 }

/-- `RoomVisitationMap.update_metric` (lines 669-686): for every region,
each of its boxes containing the agent position adds 1 to that region's
visitation counter; same for the goal rooms. -/
def rvUpdate (s : RVState) (agent_position : Vec3) : RVState :=
  { s with
    room_visitation_map := fun r =>
      s.room_visitation_map r +
        (s.room_aabbs r).countP (fun bb => aabb_contains agent_position bb),
    goal_room_visitation_map := fun r =>
      s.goal_room_visitation_map r +
        (s.goal_rooms r).countP (fun bb => aabb_contains agent_position bb) }

/-- Claim C5 (confirmed): within an episode, a step update never decreases
any region's visitation count nor any goal-region visitation count —
`update_metric` only adds the number of containing boxes. -/
theorem c5_visitation_monotone (s : RVState) (pos : Vec3) (r : String) :
    s.room_visitation_map r ≤ (rvUpdate s pos).room_visitation_map r ∧
    s.goal_room_visitation_map r ≤ (rvUpdate s pos).goal_room_visitation_map r :=
  ⟨Nat.le_add_right _ _, Nat.le_add_right _ _⟩

/-- Membership characterization of the `goal_rooms` map built by the reset
fold: a box is recorded under a name iff some region of the scene has that
name and that box and some goal's FIRST viewpoint lies in it. -/
theorem rvReset_goal_rooms_mem (goals : List EpisodeGoal) (regions : List Region)
    (acc : (String → List Aabb) × (String → List Aabb)) (n : String) (bb : Aabb) :
    bb ∈ (regions.foldl (rvResetStep goals) acc).2 n ↔
      bb ∈ acc.2 n ∨ ∃ r ∈ regions, r.category = n ∧ r.aabb = bb ∧
        goals.any (fun g => aabb_contains (goalFirstViewpoint g) r.aabb) = true := by
  induction regions generalizing acc with
  | nil => simp
  | cons a l ih =>
    rw [List.foldl_cons, ih]
    simp only [rvResetStep, List.mem_cons]
    by_cases hc : goals.any (fun g => aabb_contains (goalFirstViewpoint g) a.aabb) = true
    · by_cases hn : n = a.category
      · subst hn
        simp only [hc, if_true, List.mem_append, List.mem_singleton]
        constructor
        · rintro ((h | h) | h)
          · exact Or.inl h
          · exact Or.inr ⟨a, Or.inl rfl, rfl, h.symm, hc⟩
          · obtain ⟨r, hr, h1, h2, h3⟩ := h
            exact Or.inr ⟨r, Or.inr hr, h1, h2, h3⟩
        · rintro (h | ⟨r, hr | hr, h1, h2, h3⟩)
          · exact Or.inl (Or.inl h)
          · subst hr; exact Or.inl (Or.inr h2.symm)
          · exact Or.inr ⟨r, hr, h1, h2, h3⟩
      · simp only [hc, if_true, if_neg hn]
        constructor
        · rintro (h | ⟨r, hr, h1, h2, h3⟩)
          · exact Or.inl h
          · exact Or.inr ⟨r, Or.inr hr, h1, h2, h3⟩
        · rintro (h | ⟨r, hr | hr, h1, h2, h3⟩)
          · exact Or.inl h
          · subst hr; exact absurd h1.symm hn
          · exact Or.inr ⟨r, hr, h1, h2, h3⟩
    · simp only [Bool.not_eq_true] at hc
      simp only [hc, Bool.false_eq_true, if_false]
      constructor
      · rintro (h | ⟨r, hr, h1, h2, h3⟩)
        · exact Or.inl h
        · exact Or.inr ⟨r, Or.inr hr, h1, h2, h3⟩
      · rintro (h | ⟨r, hr | hr, h1, h2, h3⟩)
        · exact Or.inl h
        · subst hr; rw [h2] at hc; rw [h2] at h3; rw [h3] at hc
          exact Bool.noConfusion hc
        · exact Or.inr ⟨r, hr, h1, h2, h3⟩

/-- The box and goal of the C6 counterexample: the goal's first viewpoint
lies far outside the room, its second viewpoint at the room center. -/
def c6goal : EpisodeGoal := ⟨[⟨10, 10, 10⟩, ⟨0, 0, 0⟩]⟩

/-- Claim C6 is false as stated: `reset_metric` checks only
`view_points[0]` of each goal, not all viewpoints.  With one region (a box
around the origin) and one goal whose second — but not first — viewpoint is
inside the region, the region does contain a viewpoint of the goal, yet it
is not marked as a goal room. -/
theorem c6_counterexample :
    (∃ vp ∈ c6goal.viewPoints, aabb_contains vp c4box = true) ∧
    (rvReset [c6goal] [⟨"room", c4box⟩]).goal_rooms "room" = [] := by
  constructor
  · refine ⟨⟨0, 0, 0⟩, by simp [c6goal], ?_⟩
    norm_num [aabb_contains, aabbMin, aabbMax, c4box]
  · have hnot : aabb_contains (goalFirstViewpoint c6goal) c4box = false := by
      norm_num [aabb_contains, aabbMin, aabbMax, c4box, goalFirstViewpoint, c6goal]
    simp [rvReset, rvResetStep, hnot]

/-- Claim C6, amended: at reset a region is marked as a goal region iff it
contains the FIRST viewpoint of some episode goal (later viewpoints are
ignored). -/
theorem c6_amended (goals : List EpisodeGoal) (regions : List Region)
    (n : String) (bb : Aabb) :
    bb ∈ (rvReset goals regions).goal_rooms n ↔
      ∃ r ∈ regions, r.category = n ∧ r.aabb = bb ∧
        ∃ g ∈ goals, aabb_contains (goalFirstViewpoint g) r.aabb = true := by
  unfold rvReset
  rw [rvReset_goal_rooms_mem]
  simp [List.any_eq_true]

/-! ### ExplorationMetrics: panoramic turn detection (lines 856-881)

The turn/sweep bookkeeping of `ExplorationMetrics.update_metric`.  Per step
it receives the resolved action name (`task.get_action_name(action["action"])`)
and the current sight-coverage ratio (`get_visible_area(top_down_map)`,
taken here as a rational input).  Source order: coverage delta first (lines
858-862), then the action window (864-866), then the turn counters with the
non-turn reset (867-875), then the two sweep guards (876-881). -/

/-- Python's `"TURN" in name`: substring containment. -/
def containsTURN (name : String) : Bool :=
  name.toList.tails.any (fun t => "TURN".toList.isPrefixOf t)

/-- The per-episode turn-detection state of `ExplorationMetrics` (reset by
lines 734-741 to the values of `turnReset` below). -/
structure TurnState where
  last_20_actions : List String
  total_left_turns : ℕ
  total_right_turns : ℕ
  panoramic_turns : ℕ
  panoramic_turns_strict : ℕ
  delta_sight_coverage : ℚ
  prev_sight_coverage : ℚ
  avg_delta_coverage : ℚ
deriving DecidableEq

/-- `total_left_turns` after one update (lines 867-873): zeroed by a
non-turn action, else incremented by `TURN_LEFT`. -/
def newLeft (s : TurnState) (a : String) : ℕ :=
  if ¬ containsTURN a then 0
  else if a = "TURN_LEFT" then s.total_left_turns + 1 else s.total_left_turns

/-- `total_right_turns` after one update (lines 867-875). -/
def newRight (s : TurnState) (a : String) : ℕ :=
  if ¬ containsTURN a then 0
  else if a = "TURN_RIGHT" then s.total_right_turns + 1 else s.total_right_turns

/-- `delta_sight_coverage` after one update: the step-over-step coverage
difference (line 861), zeroed when the action is not a turn (line 870). -/
def newDelta (s : TurnState) (a : String) (sight_coverage : ℚ) : ℚ :=
  if ¬ containsTURN a then 0 else sight_coverage - s.prev_sight_coverage

/-- The lenient sweep guard (line 876): left ≥ 3, right ≥ 3, their sum ≥ 8,
and the coverage delta exceeds 0.015. -/
def panGuard (s : TurnState) (a : String) (sight_coverage : ℚ) : Prop :=
  3 ≤ newLeft s a ∧ 3 ≤ newRight s a ∧ 8 ≤ newRight s a + newLeft s a ∧
    (3/200 : ℚ) < newDelta s a sight_coverage

/-- The strict sweep guard (line 879): same counters, threshold 0.01. -/
def panGuardStrict (s : TurnState) (a : String) (sight_coverage : ℚ) : Prop :=
  3 ≤ newLeft s a ∧ 3 ≤ newRight s a ∧ 8 ≤ newRight s a + newLeft s a ∧
    (1/100 : ℚ) < newDelta s a sight_coverage

instance (s : TurnState) (a : String) (c : ℚ) : Decidable (panGuard s a c) := by
  unfold panGuard; infer_instance

instance (s : TurnState) (a : String) (c : ℚ) : Decidable (panGuardStrict s a c) := by
  unfold panGuardStrict; infer_instance

/-- One step of the turn/sweep part of `ExplorationMetrics.update_metric`
(lines 856-881). -/
def turnUpdate (s : TurnState) (a : String) (sight_coverage : ℚ) : TurnState :=
  let appended := s.last_20_actions ++ [a]
  { last_20_actions := if 20 < appended.length then appended.tail else appended,
    total_left_turns := newLeft s a,
    total_right_turns := newRight s a,
    panoramic_turns :=
      if panGuard s a sight_coverage then s.panoramic_turns + 1 else s.panoramic_turns,
    panoramic_turns_strict :=
      if panGuardStrict s a sight_coverage then s.panoramic_turns_strict + 1
      else s.panoramic_turns_strict,
    delta_sight_coverage := newDelta s a sight_coverage,
    prev_sight_coverage := sight_coverage,
    avg_delta_coverage :=
      if panGuardStrict s a sight_coverage then
        s.avg_delta_coverage + newDelta s a sight_coverage
      else s.avg_delta_coverage }

/-- Runs a sequence of (action name, sight coverage) steps. -/
def turnRun (s : TurnState) (steps : List (String × ℚ)) : TurnState :=
  steps.foldl (fun st p => turnUpdate st p.1 p.2) s

/-- The turn-detection state right after `reset_metric` (lines 734-741). -/
def turnReset : TurnState :=
  { last_20_actions := [], total_left_turns := 0, total_right_turns := 0,
    panoramic_turns := 0, panoramic_turns_strict := 0,
    delta_sight_coverage := 0, prev_sight_coverage := 0, avg_delta_coverage := 0 }

theorem containsTURN_moveForward : containsTURN "MOVE_FORWARD" = false := by decide

theorem containsTURN_left : containsTURN "TURN_LEFT" = true := by decide

theorem containsTURN_right : containsTURN "TURN_RIGHT" = true := by decide

/-- The synthetic sweep sequence of the claim: 4 left turns, then 4 right
turns. -/
def fourLeftFourRight : List String :=
  ["TURN_LEFT", "TURN_LEFT", "TURN_LEFT", "TURN_LEFT",
    "TURN_RIGHT", "TURN_RIGHT", "TURN_RIGHT", "TURN_RIGHT"]

/-- Sight-coverage readings for the 8-step sweep sequence: constant until a
jump of 1/50 (= 0.02, above both thresholds) on the final step. -/
def sweepCovs : List ℚ := [0, 0, 0, 0, 0, 0, 0, 1/50]

/-- The sweep sequence with a `MOVE_FORWARD` inserted after the first `k`
turns, with the same final above-threshold coverage jump. -/
def sweepWithNonTurnAt (k : ℕ) : List (String × ℚ) :=
  ((fourLeftFourRight.take k) ++ ["MOVE_FORWARD"] ++ (fourLeftFourRight.drop k)).zip
    [0, 0, 0, 0, 0, 0, 0, 0, 1/50]

/-- Claim C7 is false as stated in its last part: a non-turn action
inserted before the 8th turn does NOT always prevent the sweep.  Inserted
before the FIRST turn (position 0) it resets the (already zero) counters,
after which the 8 turns still run uninterrupted, and the sweep counter is
still incremented on the final step. -/
theorem c7_counterexample :
    (turnRun turnReset (sweepWithNonTurnAt 0)).panoramic_turns = 1 := by
  norm_num [turnRun, sweepWithNonTurnAt, fourLeftFourRight, turnReset, turnUpdate,
    panGuard, panGuardStrict, newLeft, newRight, newDelta,
    containsTURN_moveForward, containsTURN_left, containsTURN_right, List.zip] <;>
    decide

/-- Claim C7, amended: (i) the 4-left-then-4-right sequence with an
above-threshold coverage delta on the final step increments each sweep
counter exactly once; (ii) in any step, the sweep counters are incremented
exactly when, after the update, left-turns ≥ 3, right-turns ≥ 3, their sum
≥ 8, and the (post-update) coverage delta exceeds the threshold (0.015
lenient, 0.01 strict), and a non-turn action zeroes both turn counters and
the delta; (iii) a non-turn action inserted after at least one and before
the 8th of the turns prevents the sweep — but, unlike the claim's "any
position before the 8th turn", not when inserted before the first turn
(`c7_counterexample`). -/
theorem c7_amended :
    ((turnRun turnReset (fourLeftFourRight.zip sweepCovs)).panoramic_turns = 1 ∧
      (turnRun turnReset (fourLeftFourRight.zip sweepCovs)).panoramic_turns_strict = 1) ∧
    (∀ (s : TurnState) (a : String) (c : ℚ),
      (turnUpdate s a c).panoramic_turns =
        s.panoramic_turns + (if panGuard s a c then 1 else 0) ∧
      (turnUpdate s a c).panoramic_turns_strict =
        s.panoramic_turns_strict + (if panGuardStrict s a c then 1 else 0) ∧
      (turnUpdate s a c).total_left_turns =
        (if containsTURN a then
          (if a = "TURN_LEFT" then s.total_left_turns + 1 else s.total_left_turns)
        else 0) ∧
      (turnUpdate s a c).total_right_turns =
        (if containsTURN a then
          (if a = "TURN_RIGHT" then s.total_right_turns + 1 else s.total_right_turns)
        else 0) ∧
      (turnUpdate s a c).delta_sight_coverage =
        (if containsTURN a then c - s.prev_sight_coverage else 0)) ∧
    ((turnRun turnReset (sweepWithNonTurnAt 1)).panoramic_turns = 0 ∧
      (turnRun turnReset (sweepWithNonTurnAt 2)).panoramic_turns = 0 ∧
      (turnRun turnReset (sweepWithNonTurnAt 3)).panoramic_turns = 0 ∧
      (turnRun turnReset (sweepWithNonTurnAt 4)).panoramic_turns = 0 ∧
      (turnRun turnReset (sweepWithNonTurnAt 5)).panoramic_turns = 0 ∧
      (turnRun turnReset (sweepWithNonTurnAt 6)).panoramic_turns = 0 ∧
      (turnRun turnReset (sweepWithNonTurnAt 7)).panoramic_turns = 0) := by
  refine ⟨⟨?_, ?_⟩, ?_, ?_, ?_, ?_, ?_, ?_, ?_, ?_⟩
  · norm_num [turnRun, fourLeftFourRight, sweepCovs, turnReset, turnUpdate,
      panGuard, panGuardStrict, newLeft, newRight, newDelta,
      containsTURN_left, containsTURN_right, List.zip] <;> decide
  · norm_num [turnRun, fourLeftFourRight, sweepCovs, turnReset, turnUpdate,
      panGuard, panGuardStrict, newLeft, newRight, newDelta,
      containsTURN_left, containsTURN_right, List.zip] <;> decide
  · intro s a c
    refine ⟨?_, ?_, ?_, ?_, ?_⟩
    · simp only [turnUpdate]; split <;> simp
    · simp only [turnUpdate]; split <;> simp
    · by_cases h : containsTURN a = true <;> simp [turnUpdate, newLeft, h]
    · by_cases h : containsTURN a = true <;> simp [turnUpdate, newRight, h]
    · by_cases h : containsTURN a = true <;> simp [turnUpdate, newDelta, h]
  all_goals
    norm_num [turnRun, sweepWithNonTurnAt, fourLeftFourRight, turnReset, turnUpdate,
      panGuard, panGuardStrict, newLeft, newRight, newDelta,
      containsTURN_moveForward, containsTURN_left, containsTURN_right, List.zip] <;>
      decide

/-! ### ExplorationMetrics: room visitation and peeking (lines 824-856)

The room part of `ExplorationMetrics.update_metric`.  `room_aabbs` is built
at reset as a keyed collection iterated in insertion order; since here the
iteration order matters (the loop overwrites `current_room` on every hit,
so the last hit wins), it is modelled as an association list. -/

/-- The room-tracking state of `ExplorationMetrics`. -/
structure EMState where
  room_aabbs : List (String × List Aabb)
  room_visitation_map : String → ℕ
  room_revisitation_map : String → ℕ
  room_revisitation_map_strict : String → ℕ
  previous_room_stack : List String
  steps_between_rooms : ℕ

/-- The `current_room` computed by the region loop of `update_metric`
(lines 831-838): for each region in order, every box containing the agent
position overwrites `current_room` with that region's name, so the last
containing region in iteration order wins (`None` when no region
contains the position). -/
def currentRoomOf (items : List (String × List Aabb)) (pos : Vec3) : Option String :=
  items.foldl
    (fun cur p => p.2.foldl (fun c bb => if aabb_contains pos bb then some p.1 else c) cur)
    none

/-- The number of boxes recorded for region `r` that contain `pos`; the
region loop adds exactly this much to `room_visitation_map[r]`
(line 836). -/
def emVisitCount (items : List (String × List Aabb)) (pos : Vec3) (r : String) : ℕ :=
  (items.filter (fun p => p.1 = r)).foldl
    (fun n p => n + p.2.countP (fun bb => aabb_contains pos bb)) 0

/-- `ExplorationMetrics._is_peeking` (lines 773-784): true iff the stack
has at least two entries, the entry two back equals the current room, and
the last entry differs from it (Python compares against `None` as false,
so a `None` current room is never peeking). -/
def is_peeking (stack : List String) (current : Option String) : Bool :=
  match stack.dropLast.getLast?, stack.getLast?, current with
  | some prevPrev, some prev, some cur => prevPrev = cur && prev != cur
  | _, _, _ => false

/-- The revisitation bump of lines 842-844 (and 848-850): if the room's
counter is 0 it is first incremented once, and then incremented once more
unconditionally — so a first detection takes it from 0 to 2. -/
def revisitBump (m : String → ℕ) (r : String) : String → ℕ :=
  let m1 : String → ℕ :=
    if m r = 0 then (fun x => if x = r then m x + 1 else m x) else m
  fun x => if x = r then m1 x + 1 else m1 x

/-- The room part of `ExplorationMetrics.update_metric` (lines 824-856):
visit counting, the two peeking-triggered revisitation bumps (lenient gap
`steps <= 10`, strict gap `8 <= steps <= 14`, both also requiring the
just-updated visit count of the current room to be at least 1), then the
room-stack push and the step counter. -/
def emRoomUpdate (s : EMState) (pos : Vec3) : EMState :=
  let visit1 : String → ℕ := fun r => s.room_visitation_map r + emVisitCount s.room_aabbs pos r
  let current := currentRoomOf s.room_aabbs pos
  let rev1 :=
    match current with
    | some r =>
      if is_peeking s.previous_room_stack current = true ∧ 1 ≤ visit1 r ∧
          s.steps_between_rooms ≤ 10 then
        revisitBump s.room_revisitation_map r
      else s.room_revisitation_map
    | none => s.room_revisitation_map
  let revS1 :=
    match current with
    | some r =>
      if is_peeking s.previous_room_stack current = true ∧ 1 ≤ visit1 r ∧
          8 ≤ s.steps_between_rooms ∧ s.steps_between_rooms ≤ 14 then
        revisitBump s.room_revisitation_map_strict r
      else s.room_revisitation_map_strict
    | none => s.room_revisitation_map_strict
  let pushed :=
    match current with
    | some r =>
      if s.previous_room_stack = [] ∨ s.previous_room_stack.getLast? ≠ some r then
        (s.previous_room_stack ++ [r], 0)
      else (s.previous_room_stack, s.steps_between_rooms)
    | none => (s.previous_room_stack, s.steps_between_rooms)
  { room_aabbs := s.room_aabbs,
    room_visitation_map := visit1,
    room_revisitation_map := rev1,
    room_revisitation_map_strict := revS1,
    previous_room_stack := pushed.1,
    steps_between_rooms := pushed.2 + 1 }

/-- `revisitBump` at the bumped room: 0 becomes 2, anything else grows
by 1. -/
theorem revisitBump_self (m : String → ℕ) (r : String) :
    revisitBump m r r = if m r = 0 then 2 else m r + 1 := by
  unfold revisitBump
  by_cases h : m r = 0 <;> simp [h]

/-- Claim C9 (confirmed): on an update step where a room-peeking event is
detected for the current room (peeking shape on the room stack, the
just-updated visit count at least 1, and the step gap within bounds), the
room's revisitation counter goes from 0 to 2 if this is the first
detection, and increases by exactly 1 on every later detection; the strict
counter behaves the same way under the strict step-gap bounds. -/
theorem c9_first_peek_counts_double (s : EMState) (pos : Vec3) (r : String)
    (hcur : currentRoomOf s.room_aabbs pos = some r) :
    (is_peeking s.previous_room_stack (some r) = true →
      1 ≤ s.room_visitation_map r + emVisitCount s.room_aabbs pos r →
      s.steps_between_rooms ≤ 10 →
      ((s.room_revisitation_map r = 0 →
          (emRoomUpdate s pos).room_revisitation_map r = 2) ∧
        (1 ≤ s.room_revisitation_map r →
          (emRoomUpdate s pos).room_revisitation_map r
            = s.room_revisitation_map r + 1))) ∧
    (is_peeking s.previous_room_stack (some r) = true →
      1 ≤ s.room_visitation_map r + emVisitCount s.room_aabbs pos r →
      8 ≤ s.steps_between_rooms → s.steps_between_rooms ≤ 14 →
      ((s.room_revisitation_map_strict r = 0 →
          (emRoomUpdate s pos).room_revisitation_map_strict r = 2) ∧
        (1 ≤ s.room_revisitation_map_strict r →
          (emRoomUpdate s pos).room_revisitation_map_strict r
            = s.room_revisitation_map_strict r + 1))) := by
  constructor
  · intro hp hv hs
    have hguard : is_peeking s.previous_room_stack (currentRoomOf s.room_aabbs pos) = true ∧
        1 ≤ s.room_visitation_map r + emVisitCount s.room_aabbs pos r ∧
        s.steps_between_rooms ≤ 10 := by rw [hcur]; exact ⟨hp, hv, hs⟩
    constructor
    · intro h0
      simp only [emRoomUpdate, hcur]
      rw [if_pos (by rw [hcur] at hguard; exact hguard), revisitBump_self, if_pos h0]
    · intro h1
      simp only [emRoomUpdate, hcur]
      rw [if_pos (by rw [hcur] at hguard; exact hguard), revisitBump_self,
        if_neg (by omega)]
  · intro hp hv hs8 hs14
    constructor
    · intro h0
      simp only [emRoomUpdate, hcur]
      rw [if_pos ⟨hp, hv, hs8, hs14⟩, revisitBump_self, if_pos h0]
    · intro h1
      simp only [emRoomUpdate, hcur]
      rw [if_pos ⟨hp, hv, hs8, hs14⟩, revisitBump_self, if_neg (by omega)]

/-- Concrete two-room scene for the C9 witness. -/
def emBoxA : Aabb := ⟨⟨0, 0, 0⟩, ⟨2, 2, 2⟩⟩

/-- Second room of the C9 witness scene, disjoint from `emBoxA`. -/
def emBoxB : Aabb := ⟨⟨10, 0, 0⟩, ⟨2, 2, 2⟩⟩

/-- C9 witness state: the agent visited room A, then room B, and 9 steps
have elapsed since entering B; all counters are still 0. -/
def emWitnessState : EMState :=
  { room_aabbs := [("A", [emBoxA]), ("B", [emBoxB])],
    room_visitation_map := fun _ => 0,
    room_revisitation_map := fun _ => 0,
    room_revisitation_map_strict := fun _ => 0,
    previous_room_stack := ["A", "B"],
    steps_between_rooms := 9 }

/-- Witness for `c9_first_peek_counts_double`: stepping back into room A
(peeking: two back is A, last is B, gap 9 satisfies both the lenient and
the strict bounds) takes both revisitation counters from 0 to 2. -/
theorem c9_witness :
    (emRoomUpdate emWitnessState ⟨0, 0, 0⟩).room_revisitation_map "A" = 2 ∧
    (emRoomUpdate emWitnessState ⟨0, 0, 0⟩).room_revisitation_map_strict "A" = 2 := by
  have hcur : currentRoomOf emWitnessState.room_aabbs ⟨0, 0, 0⟩ = some "A" := by
    norm_num [currentRoomOf, emWitnessState, aabb_contains, aabbMin, aabbMax,
      emBoxA, emBoxB]
  have h := c9_first_peek_counts_double emWitnessState ⟨0, 0, 0⟩ "A" hcur
  have hA : aabb_contains ⟨0, 0, 0⟩ emBoxA = true := by
    norm_num [aabb_contains, aabbMin, aabbMax, emBoxA]
  have hB : aabb_contains ⟨0, 0, 0⟩ emBoxB = false := by
    norm_num [aabb_contains, aabbMin, aabbMax, emBoxB]
  have hsAA : (decide (("A" : String) = "A")) = true := by decide
  have hsBA : (decide (("B" : String) = "A")) = false := by decide
  have hv : 1 ≤ emWitnessState.room_visitation_map "A"
      + emVisitCount emWitnessState.room_aabbs ⟨0, 0, 0⟩ "A" := by
    simp [emWitnessState, emVisitCount, List.filter, hsAA, hsBA, hA, hB]
  refine ⟨(h.1 (by decide) hv (by decide)).1 rfl,
    (h.2 (by decide) hv (by decide) (by decide)).1 rfl⟩

/-! ### ObjectNavReward (lines 214-373)

Per-step inputs are the values `update_metric` reads from the other
measures and from the top-down map: the current `DistanceToGoal` metric,
the current `GoalObjectVisible` metric, the current map exploration
fraction (`fog_of_war_mask.sum() / fog_of_war_mask.size`, or 0 when the
map measure reports nothing, lines 256-262), and the `Success` metric.

`_previous_exploration_ratio` is created lazily by a `hasattr` check inside
`reward_exploration` (lines 265-266) and is modelled as an `Option`
(`none` = attribute not yet created); crucially, `reset_metric`
(lines 226-242) never touches it.  The method bodies contain no `raise`;
`update_metric` is wrapped in `Except` so that the error-handling claim
about unrecognized modes is statable. -/

/-- The measure configuration fields read by `ObjectNavReward`. -/
structure RewardConfig where
  MODE : String
  SLACK_REWARD : ℚ
  SUCCESS_REWARD : ℚ
  GOAL_SEEN_THRESHOLD : ℚ
  GOAL_SEEN_REWARD : ℚ
  EXP_REWARD_COEF : ℚ

/-- The mutable attributes of an `ObjectNavReward` instance. -/
structure ONRState where
  metric : ℚ
  step_count : ℕ
  goal_was_seen : Bool
  previous_distance_to_target : ℚ
  previous_exploration_fraction : Option ℚ

/-- The values the measure reads from its collaborators on one step. -/
structure StepInputs where
  dist : ℚ
  goalVis : ℚ
  explFrac : ℚ
  success : Bool

/-- `ObjectNavReward.reward_exploration` (lines 244-271): the exploration
fraction delta times the coefficient; if the `_previous_exploration_ratio`
attribute does not exist yet it is first created with the current value
(making the first delta 0). -/
def reward_exploration (cfg : RewardConfig) (s : ONRState) (explFrac : ℚ) :
    ℚ × ONRState :=
  let prev := s.previous_exploration_fraction.getD explFrac
  ((explFrac - prev) * cfg.EXP_REWARD_COEF,
    { s with previous_exploration_fraction := some explFrac })

/-- `ObjectNavReward.reward_distance_to_goal` (lines 273-287): previous
minus current distance, then the baseline moves to the current distance. -/
def reward_distance_to_goal (s : ONRState) (dist : ℚ) : ℚ × ONRState :=
  (s.previous_distance_to_target - dist, { s with previous_distance_to_target := dist })

/-- `ObjectNavReward.reward_expl_dt_when_visible` (lines 289-328): on the
first step whose visibility exceeds the threshold, set the sticky flag, add
the one-time bonus and move the distance baseline to the current distance;
with the flag set, distance-to-goal shaping; otherwise exploration
shaping. -/
def reward_expl_dt_when_visible (cfg : RewardConfig) (s : ONRState)
    (inp : StepInputs) : ℚ × ONRState :=
  if cfg.GOAL_SEEN_THRESHOLD < inp.goalVis ∧ s.goal_was_seen = false then
    let s1 : ONRState :=
      { s with goal_was_seen := true, previous_distance_to_target := inp.dist }
    let p := reward_distance_to_goal s1 inp.dist
    (cfg.GOAL_SEEN_REWARD + p.1, p.2)
  else if s.goal_was_seen then
    reward_distance_to_goal s inp.dist
  else
    reward_exploration cfg s inp.explFrac

/-- `ObjectNavReward.update_metric` (lines 330-373) as a total function:
bump the step counter, slack after step 20, dispatch on `MODE` (with NO
else-branch: an unrecognized mode silently contributes no shaping term),
then the success bonus. -/
def onr_update_core (cfg : RewardConfig) (s : ONRState) (inp : StepInputs) : ONRState :=
  let s0 : ONRState := { s with step_count := s.step_count + 1 }
  let slack : ℚ := if 20 < s0.step_count then cfg.SLACK_REWARD else 0
  let shaped : ℚ × ONRState :=
    if cfg.MODE = "DISTANCE_TO_GOAL_WHEN_VISIBLE_OTHERWISE_EXPLORE" then
      reward_expl_dt_when_visible cfg s0 inp
    else if cfg.MODE = "DISTANCE_TO_GOAL" then
      reward_distance_to_goal s0 inp.dist
    else if cfg.MODE = "EXPLORATION" then
      reward_exploration cfg s0 inp.explFrac
    else (0, s0)
  let succ : ℚ := if inp.success then cfg.SUCCESS_REWARD else 0
  { shaped.2 with metric := slack + shaped.1 + succ }

/-- `ObjectNavReward.update_metric`, with the possibility of a Python
exception made explicit: the method body contains no `raise`, so every
invocation returns normally. -/
def onr_update (cfg : RewardConfig) (s : ONRState) (inp : StepInputs) :
    Except String ONRState :=
  Except.ok (onr_update_core cfg s inp)

/-- `ObjectNavReward.reset_metric` (lines 226-242): reset `_metric`,
`step_count` and the goal-seen flag, re-read the distance baseline from the
`DistanceToGoal` measure, and run one update.  The lazily created
`_previous_exploration_ratio` attribute is NOT cleared. -/
def onr_reset_core (cfg : RewardConfig) (s : ONRState) (inp : StepInputs) : ONRState :=
  onr_update_core cfg
    { s with
      metric := 0
      step_count := 0
      goal_was_seen := false
      previous_distance_to_target := inp.dist }
    inp

/-- A fresh `ObjectNavReward` instance: `__init__` sets none of the metric
attributes; the only semantically relevant initial fact is that the
`_previous_exploration_ratio` attribute does not exist yet (`hasattr`
false).  The numeric fields start at arbitrary placeholder values and are
all overwritten by `reset_metric` before being read. -/
def onrFresh : ONRState :=
  { metric := 0, step_count := 0, goal_was_seen := false,
    previous_distance_to_target := 0, previous_exploration_fraction := none }

/-- A configuration with an unrecognized shaping mode. -/
def cfgBogus : RewardConfig :=
  { MODE := "NO_SUCH_MODE", SLACK_REWARD := -1/100, SUCCESS_REWARD := 5/2,
    GOAL_SEEN_THRESHOLD := 1/10, GOAL_SEEN_REWARD := 1, EXP_REWARD_COEF := 1/4 }

/-- Step inputs of the C1 counterexample (success asserted). -/
def inpC1 : StepInputs := { dist := 2, goalVis := 0, explFrac := 1/2, success := true }

/-- State of the C1 counterexample: 25 steps already taken, so the slack
term is active. -/
def onrC1 : ONRState :=
  { metric := 0, step_count := 25, goal_was_seen := false,
    previous_distance_to_target := 2, previous_exploration_fraction := some (1/2) }

/-- Claim C1 is false as stated: with the unrecognized mode
`"NO_SUCH_MODE"`, `update_metric` does not raise — it returns normally and
computes a reward with no shaping term at all (slack `-1/100` plus success
`5/2` = `249/100`). -/
theorem c1_counterexample :
    onr_update cfgBogus onrC1 inpC1 =
      Except.ok { onrC1 with step_count := 26, metric := 249/100 } := by
  have e1 := eq_false
    (show ("NO_SUCH_MODE" : String) ≠ "DISTANCE_TO_GOAL_WHEN_VISIBLE_OTHERWISE_EXPLORE"
      by decide)
  have e2 := eq_false (show ("NO_SUCH_MODE" : String) ≠ "DISTANCE_TO_GOAL" by decide)
  have e3 := eq_false (show ("NO_SUCH_MODE" : String) ≠ "EXPLORATION" by decide)
  simp only [onr_update, onr_update_core, cfgBogus, onrC1, inpC1, e1, e2, e3,
    if_false, if_true]
  norm_num

/-- Claim C1, amended: an unrecognized `MODE` value is silently accepted —
`update_metric` returns normally, with a reward consisting of only the
slack and success terms (the shaping term is absent). -/
theorem c1_amended (cfg : RewardConfig) (s : ONRState) (inp : StepInputs)
    (h1 : cfg.MODE ≠ "DISTANCE_TO_GOAL_WHEN_VISIBLE_OTHERWISE_EXPLORE")
    (h2 : cfg.MODE ≠ "DISTANCE_TO_GOAL") (h3 : cfg.MODE ≠ "EXPLORATION") :
    onr_update cfg s inp =
      Except.ok { s with
        step_count := s.step_count + 1
        metric := (if 20 < s.step_count + 1 then cfg.SLACK_REWARD else 0) +
          (if inp.success then cfg.SUCCESS_REWARD else 0) } := by
  have e1 := eq_false h1
  have e2 := eq_false h2
  have e3 := eq_false h3
  simp only [onr_update, onr_update_core, e1, e2, e3, if_false]
  norm_num

/-- Witness for `c1_amended` at the concrete bogus-mode configuration. -/
theorem c1_witness :
    onr_update cfgBogus onrFresh { dist := 2, goalVis := 0, explFrac := 0, success := false }
      = Except.ok { onrFresh with step_count := 1, metric := 0 } := by
  have h := c1_amended cfgBogus onrFresh
    { dist := 2, goalVis := 0, explFrac := 0, success := false }
    (by decide) (by decide) (by decide)
  simpa [onrFresh] using h

/-- The exploration-mode configuration of the C3 scenario
(coefficient 1). -/
def cfgExpl : RewardConfig :=
  { MODE := "EXPLORATION", SLACK_REWARD := -1/100, SUCCESS_REWARD := 5/2,
    GOAL_SEEN_THRESHOLD := 1/10, GOAL_SEEN_REWARD := 1, EXP_REWARD_COEF := 1 }

/-- Episode-1 inputs of the C3 scenario: exploration fraction 1/2. -/
def inpEp1 : StepInputs := { dist := 4, goalVis := 0, explFrac := 1/2, success := false }

/-- Episode-2 inputs of the C3 scenario: exploration fraction 1/5. -/
def inpEp2 : StepInputs := { dist := 3, goalVis := 0, explFrac := 1/5, success := false }

/-- Claim C3 is right and the code is wrong (code bug): `reset_metric`
re-initializes `_metric`, `step_count`, `_goal_was_seen` and the distance
baseline, but never clears the lazily created
`_previous_exploration_ratio`, so it leaks across episodes.  Concretely:
after an episode whose last observed exploration fraction was 1/2, a reset
with episode-2's first exploration fraction 1/5 publishes the reward
`(1/5 - 1/2) * 1 = -3/10`, computed against the PREVIOUS episode's
baseline, whereas the same reset on a fresh component (or with the baseline
re-initialized, as the claim states) publishes 0. -/
theorem c3_reset_leaks_exploration_baseline :
    (onr_reset_core cfgExpl (onr_reset_core cfgExpl onrFresh inpEp1) inpEp2).metric
        = -3/10 ∧
    (onr_reset_core cfgExpl onrFresh inpEp2).metric = 0 := by
  have e1 := eq_false
    (show ("EXPLORATION" : String) ≠ "DISTANCE_TO_GOAL_WHEN_VISIBLE_OTHERWISE_EXPLORE"
      by decide)
  have e2 := eq_false (show ("EXPLORATION" : String) ≠ "DISTANCE_TO_GOAL" by decide)
  have e3 := eq_true (show ("EXPLORATION" : String) = "EXPLORATION" from rfl)
  refine ⟨?_, ?_⟩ <;>
    (simp only [onr_reset_core, onr_update_core, reward_exploration,
        cfgExpl, onrFresh, inpEp1, inpEp2, e1, e2, e3, if_false, if_true]
     norm_num)

/-- Claim C8 (confirmed), about the hybrid shaping term
`reward_expl_dt_when_visible`: while the sticky goal-seen flag is unset and
visibility stays at or below the threshold, the reward is exactly the
exploration delta term (with the lazy baseline rule) and the flag stays
unset; on the step visibility first exceeds the threshold, the reward is
exactly the one-time bonus, the flag becomes set and the distance baseline
moves to the current distance; and with the flag set the reward is previous
minus current distance, the baseline moves on, and the flag stays set. -/
theorem c8_hybrid_mode (cfg : RewardConfig) (s : ONRState) (inp : StepInputs) :
    (s.goal_was_seen = false → inp.goalVis ≤ cfg.GOAL_SEEN_THRESHOLD →
      (reward_expl_dt_when_visible cfg s inp).1
          = (inp.explFrac - s.previous_exploration_fraction.getD inp.explFrac)
            * cfg.EXP_REWARD_COEF ∧
        (reward_expl_dt_when_visible cfg s inp).2.goal_was_seen = false) ∧
    (s.goal_was_seen = false → cfg.GOAL_SEEN_THRESHOLD < inp.goalVis →
      (reward_expl_dt_when_visible cfg s inp).1 = cfg.GOAL_SEEN_REWARD ∧
        (reward_expl_dt_when_visible cfg s inp).2.goal_was_seen = true ∧
        (reward_expl_dt_when_visible cfg s inp).2.previous_distance_to_target
          = inp.dist) ∧
    (s.goal_was_seen = true →
      (reward_expl_dt_when_visible cfg s inp).1
          = s.previous_distance_to_target - inp.dist ∧
        (reward_expl_dt_when_visible cfg s inp).2.goal_was_seen = true ∧
        (reward_expl_dt_when_visible cfg s inp).2.previous_distance_to_target
          = inp.dist) := by
  refine ⟨?_, ?_, ?_⟩
  · intro hseen hvis
    simp [reward_expl_dt_when_visible, reward_exploration, hseen, not_lt.mpr hvis]
  · intro hseen hvis
    simp [reward_expl_dt_when_visible, reward_distance_to_goal, hseen, hvis]
  · intro hseen
    simp [reward_expl_dt_when_visible, reward_distance_to_goal, hseen]

/-- The hybrid configuration of the spec's worked example: threshold 0.1,
goal-seen bonus 1. -/
def cfgHybrid : RewardConfig :=
  { MODE := "DISTANCE_TO_GOAL_WHEN_VISIBLE_OTHERWISE_EXPLORE", SLACK_REWARD := -1/100,
    SUCCESS_REWARD := 5/2, GOAL_SEEN_THRESHOLD := 1/10, GOAL_SEEN_REWARD := 1,
    EXP_REWARD_COEF := 1 }

/-- C8 witness state: flag unset, distance baseline 3, exploration baseline
1/4 already created. -/
def onrC8 : ONRState :=
  { metric := 0, step_count := 1, goal_was_seen := false,
    previous_distance_to_target := 3, previous_exploration_fraction := some (1/4) }

/-- Witness for `c8_hybrid_mode`, at the spec's example numbers: visibility
0.15 crosses the 0.1 threshold from an unset flag, so the shaping reward is
exactly the bonus 1, the flag sets, and the baseline moves to the current
distance 2. -/
theorem c8_witness :
    (reward_expl_dt_when_visible cfgHybrid onrC8
        { dist := 2, goalVis := 3/20, explFrac := 1/4, success := false }).1 = 1 ∧
    (reward_expl_dt_when_visible cfgHybrid onrC8
        { dist := 2, goalVis := 3/20, explFrac := 1/4, success := false }).2.goal_was_seen
      = true := by
  have h := (c8_hybrid_mode cfgHybrid onrC8
    { dist := 2, goalVis := 3/20, explFrac := 1/4, success := false }).2.1
    rfl (by norm_num [cfgHybrid])
  exact ⟨h.1, h.2.1⟩

/-! ### ObjectNavSparseReward (lines 376-409) and DistanceToGoalReward
(lines 418-462) -/

/-- `ObjectNavSparseReward.update_metric` (lines 399-409): the published
metric is the success bonus and nothing else. -/
def sparse_update_metric (SUCCESS_REWARD : ℚ) (success : Bool) : ℚ :=
  if success then SUCCESS_REWARD else 0

/-- The mutable attributes of `DistanceToGoalReward`. -/
structure D2GState where
  previous_distance_to_target : ℚ
  metric : ℚ

/-- `DistanceToGoalReward.update_metric` (lines 447-462), translated
line by line: the baseline is overwritten with the current distance BEFORE
the difference `self._previous_distance_to_target - distance_to_target` is
added, then the success bonus. -/
def d2g_update_metric (SUCCESS_REWARD : ℚ) (s : D2GState) (dist : ℚ)
    (success : Bool) : D2GState :=
  let prev := dist
  let reward : ℚ := 0 + (prev - dist) + (if success then SUCCESS_REWARD else 0)
  { previous_distance_to_target := prev, metric := reward }

/-- Claim C10 (confirmed): for every state, distance and success flag, the
metric published by `DistanceToGoalReward.update_metric` equals the
`ObjectNavSparseReward` metric — the distance-difference term is
identically zero because the baseline is overwritten with the current
distance before the subtraction. -/
theorem c10_d2g_equals_sparse (SUCCESS_REWARD : ℚ) (s : D2GState) (dist : ℚ)
    (success : Bool) :
    (d2g_update_metric SUCCESS_REWARD s dist success).metric
        = sparse_update_metric SUCCESS_REWARD success ∧
    (d2g_update_metric SUCCESS_REWARD s dist success).previous_distance_to_target
        = dist := by
  unfold d2g_update_metric sparse_update_metric
  constructor
  · simp
  · rfl

end ObjectNav
